import Mathlib

set_option maxRecDepth 8000
set_option maxHeartbeats 1000000

/-
  Shallow embedding of src/txpool/types.go (package txpool) from the
  pyropy/erigon repository: the RLP transaction parser for the
  transaction pool.

  Modelling conventions:
  - Go byte slices are List Nat (each entry a byte value).
  - Go int (64-bit) cursor/length arithmetic is modelled with unbounded Int;
    the one place the source visibly wraps a 64-bit value (the accumulation
    loop of beInt over up to 8 bytes) applies an explicit two-complement
    conversion at 2^64.
  - A Go function returning (value, error) is modelled by the PR type below;
    a Go runtime panic (index or slice out of range) is the PR.panic outcome,
    distinct from returning an error.
  - The two Keccak-256 accumulators are modelled by the exact byte streams
    absorbed since their last Reset; a digest (Sum) is modelled as the
    absorbed stream itself, since the digest is a function of that stream.
-/

namespace Txpool

/-- Outcome of a Go call: a value, a returned error, or a runtime panic
(index/slice out of range). -/
inductive PR (α : Type) where
  | ok : α → PR α
  | err : String → PR α
  | panic : PR α
deriving Repr, DecidableEq

def PR.isOk {α : Type} : PR α → Bool
  | .ok _ => true
  | _ => false

def PR.isErr {α : Type} : PR α → Bool
  | .err _ => true
  | _ => false

/-- Go payload[i]: out-of-range indexing is a runtime panic. -/
def getByte (payload : List Nat) (i : Int) : PR Nat :=
  if h : 0 ≤ i ∧ i < (payload.length : Int) then
    .ok (payload.get ⟨i.toNat, by omega⟩)
  else
    .panic

/-- Go payload[a:b]: the slice expression panics unless 0 ≤ a ≤ b ≤ len. -/
def sliceL (payload : List Nat) (a b : Int) : PR (List Nat) :=
  if 0 ≤ a ∧ a ≤ b ∧ b ≤ (payload.length : Int) then
    .ok ((payload.drop a.toNat).take (b - a).toNat)
  else
    .panic

/-- Two-complement reading of a 64-bit pattern, as Go int. -/
def toSigned64 (u : Nat) : Int :=
  if u < 2 ^ 63 then (u : Int) else (u : Int) - 2 ^ 64

/-- Accumulation r = (r<<8) | b over a byte list, on a 64-bit register
(the loop bodies of beInt, types.go:79-81, and parseUint64, types.go:137-140). -/
def beAcc64 (bs : List Nat) : Nat :=
  bs.foldl (fun r b => ((r <<< 8) ||| b) % 2 ^ 64) 0

/-- Big-endian value of a byte list (uint256.Int SetBytes, types.go:162). -/
def beNat (bs : List Nat) : Nat :=
  bs.foldl (fun r b => r * 256 + b) 0

/-- Bit length with a structural fuel argument (the fuel only bounds the
recursion depth; bitLen below supplies fuel n, and the number of bits of n
never exceeds n for n ≥ 1, so the fuel never runs out). -/
def bitLenAux : Nat → Nat → Nat
  | 0, _ => 0
  | fuel + 1, n => if n = 0 then 0 else bitLenAux fuel (n / 2) + 1

/-- Number of bits in n (uint256.Int BitLen, bits.Len): 0 for 0, and the
position of the highest set bit plus one otherwise. -/
def bitLen (n : Nat) : Nat := bitLenAux n n

/-- Big-endian fixed-width byte encoding of n, w bytes (binary.BigEndian
PutUint64 composition used at types.go:448 and types.go:462-465). -/
def beBytesFixed : Nat → Nat → List Nat
  | 0, _ => []
  | w + 1, n => beBytesFixed w (n / 256) ++ [n % 256]

/-- beInt, types.go:74-83: parses the big-endian integer in
payload[pos:pos+length] into a Go int, rejecting a leading zero byte.
The index payload[pos] and the slice payload[pos:pos+length] panic when out
of range, exactly as in Go. -/
def beInt (payload : List Nat) (pos length : Int) : PR Int :=
  if 0 < length then
    match getByte payload pos with
    | .panic => .panic
    | .err e => .err e
    | .ok b =>
      if b = 0 then .err "integer encoding for RLP must not have leading zeros"
      else
        match sliceL payload pos (pos + length) with
        | .panic => .panic
        | .err e => .err e
        | .ok bs => .ok (toSigned64 (beAcc64 bs))
  else
    match sliceL payload pos (pos + length) with
    | .panic => .panic
    | .err e => .err e
    | .ok bs => .ok (toSigned64 (beAcc64 bs))

/-- The function named prefix in types.go:87-117: reads the RLP prefix at
pos and returns (dataPos, dataLen, isList). -/
def rlpPrefix (payload : List Nat) (pos : Int) : PR (Int × Int × Bool) :=
  match getByte payload pos with
  | .panic => .panic
  | .err e => .err e
  | .ok first =>
    if first < 128 then .ok (pos, 1, false)
    else if first < 184 then .ok (pos + 1, (first : Int) - 128, false)
    else if first < 192 then
      match beInt payload (pos + 1) ((first : Int) - 183) with
      | .panic => .panic
      | .err e => .err e
      | .ok dl => .ok (pos + 1 + ((first : Int) - 183), dl, false)
    else if first < 248 then .ok (pos + 1, (first : Int) - 192, true)
    else
      match beInt payload (pos + 1) ((first : Int) - 247) with
      | .panic => .panic
      | .err e => .err e
      | .ok dl => .ok (pos + 1 + ((first : Int) - 247), dl, true)

/-- parseUint64, types.go:120-142. Note the bound check uses >= len. -/
def parseUint64 (payload : List Nat) (pos : Int) : PR (Int × Nat) :=
  match rlpPrefix payload pos with
  | .panic => .panic
  | .err e => .err e
  | .ok (dataPos, dataLen, isList) =>
    if isList then .err "uint64 must be a string, not list"
    else if (payload.length : Int) ≤ dataPos + dataLen then .err "unexpected end of payload"
    else if 8 < dataLen then .err "uint64 must not be more than 8 bytes long"
    else if 0 < dataLen then
      match getByte payload dataPos with
      | .panic => .panic
      | .err e => .err e
      | .ok b =>
        if b = 0 then .err "integer encoding for RLP must not have leading zeros"
        else
          match sliceL payload dataPos (dataPos + dataLen) with
          | .panic => .panic
          | .err e => .err e
          | .ok bs => .ok (dataPos + dataLen, beAcc64 bs)
    else
      match sliceL payload dataPos (dataPos + dataLen) with
      | .panic => .panic
      | .err e => .err e
      | .ok bs => .ok (dataPos + dataLen, beAcc64 bs)

/-- parseUint256, types.go:145-164. Note the bound check uses > len. -/
def parseUint256 (payload : List Nat) (pos : Int) : PR (Int × Nat) :=
  match rlpPrefix payload pos with
  | .panic => .panic
  | .err e => .err e
  | .ok (dataPos, dataLen, isList) =>
    if isList then .err "uint256 must be a string, not list"
    else if (payload.length : Int) < dataPos + dataLen then .err "unexpected end of payload"
    else if 32 < dataLen then .err "uint256 must not be more than 32 bytes long"
    else if 0 < dataLen then
      match getByte payload dataPos with
      | .panic => .panic
      | .err e => .err e
      | .ok b =>
        if b = 0 then .err "integer encoding for RLP must not have leading zeros"
        else
          match sliceL payload dataPos (dataPos + dataLen) with
          | .panic => .panic
          | .err e => .err e
          | .ok bs => .ok (dataPos + dataLen, beNat bs)
    else
      match sliceL payload dataPos (dataPos + dataLen) with
      | .panic => .panic
      | .err e => .err e
      | .ok bs => .ok (dataPos + dataLen, beNat bs)

def LegacyTxType : Nat := 0
def AccessListTxType : Nat := 1
def DynamicFeeTxType : Nat := 2

/-- TxSlot, types.go:54-71; only the fields ParseTransaction writes are
modelled (the pool-management fields txId, senderId, bestIdx, worstIdx,
local, sender are never touched by the parser). idHash is the byte stream
absorbed by keccak1 at the moment of Sum (types.go:438). -/
structure TxSlot where
  nonce : Nat
  tip : Nat
  feeCap : Nat
  gas : Nat
  value : Nat
  creation : Bool
  dataLen : Int
  alAddrCount : Nat
  alStorCount : Nat
  idHash : List Nat
deriving Repr, DecidableEq

/-- TxParseContext, types.go:31-39. k1 and k2 are the byte streams absorbed
by keccak1 and keccak2 since their last Reset; v, r, s are the uint256
scratch registers; sighash and sig are the output buffers. The constants
n27, n28, n35 are fixed and inlined. A call that returns an error leaves the
Go context in a partial state that the model does not track (only successful
calls return a context). -/
structure Ctx where
  k1 : List Nat
  k2 : List Nat
  v : Nat
  r : Nat
  s : Nat
  sighash : List Nat
  sig : List Nat
deriving Repr, DecidableEq

/-- A freshly allocated context (NewTxParseContext, types.go:41-50): empty
hash streams, zeroed registers and output arrays. -/
def ctx0 : Ctx :=
  { k1 := [], k2 := [], v := 0, r := 0, s := 0,
    sighash := List.replicate 32 0, sig := List.replicate 65 0 }

/-- Cursor state threaded through the walk of ParseTransaction. -/
structure St where
  p : Int
  legacy : Bool
  txType : Nat
  sigHashPos : Int
  nonce : Nat
  tip : Nat
  feeCap : Nat
  gas : Nat
  value : Nat
  creation : Bool
  dataLen : Int
  alAddrCount : Nat
  alStorCount : Nat
  k1 : List Nat
  k2 : List Nat
deriving Repr, DecidableEq

/-- Inner loop over the storage keys of one access-list tuple,
types.go:354-372. storEnd is storagePos+storageLen. The fuel argument only
bounds the number of iterations; every iteration that recurses has consumed
a 32-byte storage key (the dataLen = 32 check), so the fuel chosen at the
call site (storageLen.toNat + 1) can never be exhausted before the loop
condition fails, and the fuel-exhaustion branch is unreachable. -/
def skeyLoop (payload : List Nat) (storEnd : Int) : Nat → Int → Nat → PR (Int × Nat)
  | 0, _, _ => .panic
  | fuel + 1, skeyPos, count =>
    if skeyPos < storEnd then
      match rlpPrefix payload skeyPos with
      | .panic => .panic
      | .err e => .err ("tuple storage key len: " ++ e)
      | .ok (dp, dl, isList) =>
        if isList then .err "tuple storage key must be a string, not list"
        else if storEnd < dp + dl then .err "unexpected end of tuple after storage key"
        else if dl ≠ 32 then .err "unexpected length of tuple storage key"
        else skeyLoop payload storEnd fuel (dp + dl) (count + 1)
    else .ok (skeyPos, count)

/-- Loop over the access-list tuples, types.go:315-377. alEnd is
dataPos+dataLen of the access list. As for skeyLoop, every iteration that
recurses has consumed a whole tuple of at least 21 bytes, so the fuel chosen
at the call site (dataLen.toNat + 1) cannot run out before the loop
condition fails. -/
def alTuples (payload : List Nat) (alEnd : Int) : Nat → Int → Nat → Nat → PR (Int × Nat × Nat)
  | 0, _, _, _ => .panic
  | fuel + 1, tuplePos, addrC, storC =>
    if tuplePos < alEnd then
      match rlpPrefix payload tuplePos with
      | .panic => .panic
      | .err e => .err ("tuple len: " ++ e)
      | .ok (tdp, tdl, tList) =>
        if !tList then .err "tuple must be a list, not string"
        else if alEnd < tdp + tdl then .err "unexpected end of access list after tuple"
        else
          match rlpPrefix payload tdp with
          | .panic => .panic
          | .err e => .err ("tuple addr len: " ++ e)
          | .ok (adp, adl, aList) =>
            if aList then .err "tuple addr must be a string, not list"
            else if tdp + tdl < adp + adl then .err "unexpected end of tuple after address"
            else if adl ≠ 20 then .err "unexpected length of tuple address"
            else
              match rlpPrefix payload (adp + adl) with
              | .panic => .panic
              | .err e => .err ("storage key list len: " ++ e)
              | .ok (sdp, sdl, sList) =>
                if !sList then .err "storage key list must be a list, not string"
                else if tdp + tdl < sdp + sdl then .err "unexpected end of tuple after storage key list"
                else
                  match skeyLoop payload (sdp + sdl) (sdl.toNat + 1) sdp 0 with
                  | .panic => .panic
                  | .err e => .err e
                  | .ok (skeyFinal, cnt) =>
                    if skeyFinal ≠ sdp + sdl then .err "extraneous space in the tuple after storage key list"
                    else alTuples payload alEnd fuel (tdp + tdl) (addrC + 1) (storC + cnt)
    else .ok (tuplePos, addrC, storC)

/-- types.go:176-224: empty check, keccak1.Reset (k1 := []; keccak2 is NOT
reset, its stream continues from the incoming context), outer prefix, the
single-top-level-item check, and for a typed transaction the type byte and
the envelope list header. At types.go:226 sigHashPos is set to the cursor. -/
def outerStage (payload : List Nat) (pos : Int) (ctx : Ctx) : PR St :=
  if payload.length = 0 then .err "empty rlp"
  else
    match rlpPrefix payload pos with
    | .panic => .panic
    | .err e => .err ("size prefix: " ++ e)
    | .ok (dataPos, dataLen, legacy) =>
      if dataPos + dataLen ≠ (payload.length : Int) then
        .err "transaction must be either 1 list or 1 string"
      else if legacy then
        .ok { p := dataPos, legacy := true, txType := LegacyTxType, sigHashPos := dataPos,
              nonce := 0, tip := 0, feeCap := 0, gas := 0, value := 0, creation := false,
              dataLen := 0, alAddrCount := 0, alStorCount := 0,
              k1 := [], k2 := ctx.k2 }
      else
        match getByte payload dataPos with
        | .panic => .panic
        | .err e => .err e
        | .ok ty =>
          if (payload.length : Int) ≤ dataPos + 1 then .err "unexpected end of payload after txType"
          else
            match rlpPrefix payload (dataPos + 1) with
            | .panic => .panic
            | .err e => .err ("envelope prefix: " ++ e)
            | .ok (dp2, dl2, isList2) =>
              if !isList2 then .err "envelope must be a list, not string"
              else if (payload.length : Int) < dp2 + dl2 then .err "unexpected end of payload after envelope"
              else
                match sliceL payload (dataPos + 1) (dp2 + dl2) with
                | .panic => .panic
                | .err e => .err e
                | .ok env =>
                  .ok { p := dp2, legacy := false, txType := ty, sigHashPos := dp2,
                        nonce := 0, tip := 0, feeCap := 0, gas := 0, value := 0, creation := false,
                        dataLen := 0, alAddrCount := 0, alStorCount := 0,
                        k1 := [ty] ++ env, k2 := ctx.k2 ++ [ty] }

/-- types.go:228-240: for a typed transaction, skip the chainId string.
Note the bound check rejects dataPos+dataLen ≥ len. -/
def chainIdStage (payload : List Nat) (st : St) : PR St :=
  if st.legacy then .ok st
  else
    match rlpPrefix payload st.p with
    | .panic => .panic
    | .err e => .err ("chainId len: " ++ e)
    | .ok (dp, dl, isList) =>
      if isList then .err "chainId must be a string, not list"
      else if (payload.length : Int) ≤ dp + dl then .err "unexpected end of payload after chainId"
      else .ok { st with p := dp + dl }

/-- types.go:242-267: nonce, tip (gasPrice), feeCap (parsed only when
txType ≥ DynamicFeeTxType, otherwise feeCap := tip), gas. -/
def scalarsStage (payload : List Nat) (st : St) : PR St :=
  match parseUint64 payload st.p with
  | .panic => .panic
  | .err e => .err ("nonce: " ++ e)
  | .ok (p1, nonce) =>
    match parseUint64 payload p1 with
    | .panic => .panic
    | .err e => .err ("tip: " ++ e)
    | .ok (p2, tip) =>
      match (if st.txType < DynamicFeeTxType then .ok (p2, tip) else parseUint64 payload p2 : PR (Int × Nat)) with
      | .panic => .panic
      | .err e => .err ("feeCap: " ++ e)
      | .ok (p3, feeCap) =>
        match parseUint64 payload p3 with
        | .panic => .panic
        | .err e => .err ("gas: " ++ e)
        | .ok (p4, gas) =>
          .ok { st with p := p4, nonce := nonce, tip := tip, feeCap := feeCap, gas := gas }

/-- types.go:269-284: destination address; string of length 0 or 20; the
bound check rejects dataPos+dataLen ≥ len. -/
def toStage (payload : List Nat) (st : St) : PR St :=
  match rlpPrefix payload st.p with
  | .panic => .panic
  | .err e => .err ("to len: " ++ e)
  | .ok (dp, dl, isList) =>
    if isList then .err "to must be a string, not list"
    else if (payload.length : Int) ≤ dp + dl then .err "unexpected end of payload after to"
    else if dl ≠ 0 ∧ dl ≠ 20 then .err "unexpected length of to field"
    else .ok { st with creation := dl = 0, p := dp + dl }

/-- types.go:286-289: value. -/
def valueStage (payload : List Nat) (st : St) : PR St :=
  match parseUint256 payload st.p with
  | .panic => .panic
  | .err e => .err ("value: " ++ e)
  | .ok (p1, v) => .ok { st with p := p1, value := v }

/-- types.go:291-302: data; only the length is recorded; the bound check
rejects dataPos+dataLen ≥ len. -/
def dataStage (payload : List Nat) (st : St) : PR St :=
  match rlpPrefix payload st.p with
  | .panic => .panic
  | .err e => .err ("data len: " ++ e)
  | .ok (dp, dl, isList) =>
    if isList then .err "data must be a string, not list"
    else if (payload.length : Int) ≤ dp + dl then .err "unexpected end of payload after data"
    else .ok { st with dataLen := dl, p := dp + dl }

/-- types.go:303-382: for a typed transaction, the access list; the outer
bound check rejects dataPos+dataLen ≥ len, and the tuple walk must end
exactly at dataPos+dataLen. -/
def alStage (payload : List Nat) (st : St) : PR St :=
  if st.legacy then .ok st
  else
    match rlpPrefix payload st.p with
    | .panic => .panic
    | .err e => .err ("access list len: " ++ e)
    | .ok (dp, dl, isList) =>
      if !isList then .err "access list must be a list, not string"
      else if (payload.length : Int) ≤ dp + dl then .err "unexpected end of payload after access list"
      else
        match alTuples payload (dp + dl) (dl.toNat + 1) dp 0 0 with
        | .panic => .panic
        | .err e => .err e
        | .ok (tuplePos, aC, sC) =>
          if tuplePos ≠ dp + dl then .err "extraneous space in the access list after all tuples"
          else .ok { st with p := dp + dl, alAddrCount := aC, alStorCount := sC }

/-- types.go:441-453: the synthetic RLP list length prefix fed to keccak2.
The long form mirrors the source: an 8-byte big-endian scratch is filled and
the final beLen bytes are emitted after the 183+beLen marker. -/
def lenPrefixBytes (sigHashLen : Nat) : List Nat :=
  if sigHashLen < 56 then [sigHashLen + 128]
  else
    ((bitLen sigHashLen + 7) / 8 + 183) ::
      (beBytesFixed 8 sigHashLen).drop (8 - (bitLen sigHashLen + 7) / 8)

/-- types.go:455-471: the chain-id fragment fed to keccak2 for a legacy
EIP-155 transaction. With chainIdBits ≤ 7 a single raw byte is emitted;
otherwise a 128+chainIdLen string marker followed by the last chainIdLen
bytes of the 32-byte big-endian scratch holding v. -/
def legacyChainIdBytes (vHalf chainIdBits chainIdLen : Nat) : List Nat :=
  if chainIdBits ≤ 7 then [vHalf % 256]
  else (128 + chainIdLen) :: (beBytesFixed 32 vHalf).drop (32 - chainIdLen)

/-- types.go:422-487 after V has been parsed: R and S, the keccak1 finish
for legacy (hash of payload[pos:p]), the keccak2 stream (length prefix, then
the chain-id fragment for legacy, then payload[sigHashPos:sigHashEnd] - in
that order, as in the source), and the packed 65-byte signature blob. -/
def sigTail (payload : List Nat) (pos : Int) (st : St) (pAfterV : Int)
    (vByte vReg sigHashLen : Nat) (chainIdW : List Nat) : PR (TxSlot × Int × Ctx) :=
  match parseUint256 payload pAfterV with
  | .panic => .panic
  | .err e => .err ("R: " ++ e)
  | .ok (p2, r) =>
    match parseUint256 payload p2 with
    | .panic => .panic
    | .err e => .err ("S: " ++ e)
    | .ok (p3, s) =>
      match (if st.legacy then sliceL payload pos p3 else .ok [] : PR (List Nat)) with
      | .panic => .panic
      | .err e => .err e
      | .ok fullTx =>
        let k1 := st.k1 ++ fullTx
        match sliceL payload st.sigHashPos st.p with
        | .panic => .panic
        | .err e => .err e
        | .ok fieldBytes =>
          let k2 := st.k2 ++ lenPrefixBytes sigHashLen
              ++ (if st.legacy then chainIdW else []) ++ fieldBytes
          .ok ({ nonce := st.nonce, tip := st.tip, feeCap := st.feeCap, gas := st.gas,
                 value := st.value, creation := st.creation, dataLen := st.dataLen,
                 alAddrCount := st.alAddrCount, alStorCount := st.alStorCount,
                 idHash := k1 },
               p3,
               { k1 := k1, k2 := k2, v := vReg, r := r, s := s,
                 sighash := k2,
                 sig := beBytesFixed 32 r ++ beBytesFixed 32 s ++ [vByte] })

/-- types.go:383-487: V of the signature. For legacy, v = 27/28 keeps the
raw sigHashLen and vByte := v&1 (types.go:397); otherwise v is decremented
by 35 with uint256 wrap-around, vByte := (v-35)&1, chainId := (v-35)>>1, and
sigHashLen grows by the chain-id byte length (plus one for its string
marker when chainIdBits > 7) - with NO extra 2 for trailing empty strings.
For typed transactions v must fit uint64 and be ≤ 1. -/
def sigStage (payload : List Nat) (pos : Int) (ctx : Ctx) (st : St) : PR (TxSlot × Int × Ctx) :=
  let sigHashLen0 : Nat := (st.p - st.sigHashPos).toNat
  if st.legacy then
    match parseUint256 payload st.p with
    | .panic => .panic
    | .err e => .err ("V: " ++ e)
    | .ok (p1, v) =>
      if v = 27 ∨ v = 28 then
        sigTail payload pos st p1 ((v % 2 ^ 64) &&& 1) v sigHashLen0 []
      else
        let vSub := (v + 2 ^ 256 - 35) % 2 ^ 256
        let vByte := (vSub % 2 ^ 64) &&& 1
        let vHalf := vSub / 2
        let cBits := bitLen vHalf
        let cLen := if cBits ≤ 7 then 1 else (cBits + 7) / 8
        sigTail payload pos st p1 vByte vHalf
          (sigHashLen0 + (if cBits ≤ 7 then 0 else 1) + cLen)
          (legacyChainIdBytes vHalf cBits cLen)
  else
    match parseUint64 payload st.p with
    | .panic => .panic
    | .err e => .err ("V: " ++ e)
    | .ok (p1, v) =>
      if 1 < v then .err "V is loo large"
      else sigTail payload pos st p1 v ctx.v sigHashLen0 []

/-- ParseTransaction, types.go:174-487, as the composition of the stages
above. The incoming context matters in two places: its keccak2 stream (never
reset) and, for typed transactions, its untouched v register. -/
def ParseTransaction (ctx : Ctx) (payload : List Nat) (pos : Int) : PR (TxSlot × Int × Ctx) :=
  match outerStage payload pos ctx with
  | .panic => .panic
  | .err e => .err e
  | .ok st1 =>
    match chainIdStage payload st1 with
    | .panic => .panic
    | .err e => .err e
    | .ok st2 =>
      match scalarsStage payload st2 with
      | .panic => .panic
      | .err e => .err e
      | .ok st3 =>
        match toStage payload st3 with
        | .panic => .panic
        | .err e => .err e
        | .ok st4 =>
          match valueStage payload st4 with
          | .panic => .panic
          | .err e => .err e
          | .ok st5 =>
            match dataStage payload st5 with
            | .panic => .panic
            | .err e => .err e
            | .ok st6 =>
              match alStage payload st6 with
              | .panic => .panic
              | .err e => .err e
              | .ok st7 => sigStage payload pos ctx st7

/-- The end-cursor position of a successful parse. -/
def endPosOf (x : PR (TxSlot × Int × Ctx)) : Option Int :=
  match x with
  | .ok (_, p, _) => some p
  | _ => none

/-- The descriptor of a successful parse. -/
def slotOf (x : PR (TxSlot × Int × Ctx)) : Option TxSlot :=
  match x with
  | .ok (slot, _, _) => some slot
  | _ => none

/-- The context after a successful parse. -/
def ctxOf (x : PR (TxSlot × Int × Ctx)) : Option Ctx :=
  match x with
  | .ok (_, _, c) => some c
  | _ => none

/-- The sigHash (modelled as the keccak2 preimage stream) of a successful
parse. -/
def sighashOf (x : PR (TxSlot × Int × Ctx)) : Option (List Nat) :=
  match x with
  | .ok (_, _, c) => some c.sighash
  | _ => none

/-- The 65-byte signature blob of a successful parse. -/
def sigOf (x : PR (TxSlot × Int × Ctx)) : Option (List Nat) :=
  match x with
  | .ok (_, _, c) => some c.sig
  | _ => none

/-- Byte 64 (the parity byte) of the signature blob of a successful parse. -/
def sig64Of (x : PR (TxSlot × Int × Ctx)) : Option Nat :=
  (sigOf x).bind (fun l => l.get? 64)

/-
  Concrete transaction encodings used to evaluate the parser.
-/

/-- Legacy transaction rlp([0, 0, 0, empty, 0, empty, 27, 1, 1]):
nonce, gasPrice, gas, to, value, data all empty/zero, v = 27, r = s = 1. -/
def c1buf : List Nat := [0xc9, 0x80, 0x80, 0x80, 0x80, 0x80, 0x80, 0x1b, 0x01, 0x01]

/-- First call on a fresh context. -/
def c1run1 : PR (TxSlot × Int × Ctx) := ParseTransaction ctx0 c1buf 0

/-- Second call, reusing the context returned by the first call. -/
def c1run2 : PR (TxSlot × Int × Ctx) := ParseTransaction ((ctxOf c1run1).getD ctx0) c1buf 0

/-- Legacy EIP-155 transaction rlp([0, 0, 0, empty, 0, empty, 37, 1, 1]):
v = 0x25 = 37, hence chainId = 1, parity = 0. -/
def c2buf : List Nat := [0xc9, 0x80, 0x80, 0x80, 0x80, 0x80, 0x80, 0x25, 0x01, 0x01]

/-- Same bytes as c1buf (legacy transaction with v = 27). -/
def c3buf27 : List Nat := [0xc9, 0x80, 0x80, 0x80, 0x80, 0x80, 0x80, 0x1b, 0x01, 0x01]

/-- Same bytes as c2buf (legacy EIP-155 transaction with v = 37). -/
def c3buf37 : List Nat := [0xc9, 0x80, 0x80, 0x80, 0x80, 0x80, 0x80, 0x25, 0x01, 0x01]

/-- A typed envelope whose type byte is 0x03 (neither 0x01 nor 0x02),
wrapping rlp([1, 0, 0, 0, 0, empty, 0, empty, [], 0, 1, 1]) in the
dynamic-fee field order. -/
def c4buf : List Nat :=
  [0x8e, 0x03, 0xcc, 0x01, 0x80, 0x80, 0x80, 0x80, 0x80, 0x80, 0x80, 0xc0, 0x80, 0x01, 0x01]

/-- A legacy list of 10 bytes of content: the nine fields of c1buf followed
by one slack byte 0x01 inside the outer list, after s. -/
def c5buf : List Nat := [0xca, 0x80, 0x80, 0x80, 0x80, 0x80, 0x80, 0x1b, 0x01, 0x01, 0x01]

/-- A single byte 0xB8: a long-form string prefix whose length-of-length
byte lies past the end of the buffer. -/
def c6buf : List Nat := [0xb8]

/-- A legacy transaction whose nonce is encoded with an over-long prefix:
0xB8 0x01 0x05 is the long string form for the 1-byte payload 0x05, which
canonical RLP requires to be written 0x05. -/
def c7buf : List Nat := [0xcb, 0xb8, 0x01, 0x05, 0x80, 0x80, 0x80, 0x80, 0x80, 0x1b, 0x01, 0x01]

/-- A type-0x01 envelope whose chainId is encoded with a leading zero,
0x81 0x00, wrapping rlp([chainId, 0, 0, 0, empty, 0, empty, [], 0, 1, 1]):
the chainId item is skipped without being decoded (types.go:229-239), so
its leading zero is never checked. -/
def c7zbuf : List Nat :=
  [0x8e, 0x01, 0xcc, 0x81, 0x00, 0x80, 0x80, 0x80, 0x80, 0x80, 0x80, 0xc0, 0x80, 0x01, 0x01]

/-- Same bytes as c1buf, used as a valid base transaction for appending. -/
def c8buf : List Nat := [0xc9, 0x80, 0x80, 0x80, 0x80, 0x80, 0x80, 0x1b, 0x01, 0x01]

/-- A scratch walker state used to witness the stage-level theorems. -/
def stW : St :=
  { p := 0, legacy := false, txType := 0, sigHashPos := 0,
    nonce := 0, tip := 0, feeCap := 0, gas := 0, value := 0, creation := false,
    dataLen := 0, alAddrCount := 0, alStorCount := 0, k1 := [], k2 := [] }

/-- Claim C1: ParseTransaction is a pure function of buf on a reused
context, because both Keccak-256 accumulators are reset at the start of each
parse call. Refuted by the code: only keccak1 is reset (types.go:180);
keccak2 is never reset, so on the second of two successive calls the
sigHash preimage is the concatenation of both preimages. The descriptor,
the end position and the 65-byte sig blob do coincide, but the sigHash
differs between the two calls. -/
theorem c1_context_reuse_changes_sighash :
    c1run1.isOk = true ∧ c1run2.isOk = true ∧
    slotOf c1run1 = slotOf c1run2 ∧
    endPosOf c1run1 = endPosOf c1run2 ∧
    sigOf c1run1 = sigOf c1run2 ∧
    sighashOf c1run1 ≠ sighashOf c1run2 := by decide

/-- Claim C2: for a legacy transaction with v ≥ 35 the sigHash preimage is
claimed to be: list prefix for L + chainIdBytes [+1] + 2, then the
pre-signature field bytes, then the encoded chain id, then 0x80 0x80.
Refuted by the code: on c2buf (L = 6, chainId = 1) the code feeds keccak2
the prefix 0x87 (length 6 + 1, without the +2), then the chain id 0x01
BEFORE the field bytes, and never appends the two 0x80 bytes; the claimed
stream would be 0x89, the six field bytes, 0x01, 0x80, 0x80. -/
theorem c2_eip155_sighash_stream_diverges :
    sighashOf (ParseTransaction ctx0 c2buf 0) =
      some [0x87, 0x01, 0x80, 0x80, 0x80, 0x80, 0x80, 0x80] ∧
    sighashOf (ParseTransaction ctx0 c2buf 0) ≠
      some [0x89, 0x80, 0x80, 0x80, 0x80, 0x80, 0x80, 0x01, 0x80, 0x80] := by decide

/-- Claim C3: for legacy v ∈ {27, 28} the parity byte sig[64] is claimed to
be v − 27. Refuted by the code: types.go:397 stores byte(v & 1), which is 1
for v = 27 (the claim demands 27 − 27 = 0). The v ≥ 35 half of the claim
does hold on the code: for v = 37 the stored parity is (37 − 35) & 1 = 0 and
the chain id 1 appears in the preimage. -/
theorem c3_legacy_parity_byte_inverted :
    sig64Of (ParseTransaction ctx0 c3buf27 0) = some 1 ∧
    (1 : Nat) ≠ 27 - 27 ∧
    sig64Of (ParseTransaction ctx0 c3buf37 0) = some 0 := by decide

/-- Claim C4: a typed envelope whose type discriminant is neither 0x01 nor
0x02 is claimed to be rejected. Refuted by the code: no check of the type
byte exists (types.go:198 just stores it), and the type-0x03 input c4buf is
fully parsed and returns a descriptor. -/
theorem c4_unknown_type_byte_accepted :
    (ParseTransaction ctx0 c4buf 0).isOk = true ∧
    c4buf.get? 1 = some 3 ∧
    (3 : Nat) ≠ AccessListTxType ∧ (3 : Nat) ≠ DynamicFeeTxType := by decide

/-- Claim C5: on success the end cursor is claimed to equal len(buf), slack
bytes after s inside the outer list being rejected. Refuted by the code:
there is no termination check after the signature (types.go:428-487), and
c5buf (a legacy list with one slack byte after s) parses successfully with
end cursor 10 while the buffer has 11 bytes. -/
theorem c5_slack_after_signature_accepted :
    (ParseTransaction ctx0 c5buf 0).isOk = true ∧
    endPosOf (ParseTransaction ctx0 c5buf 0) = some 10 ∧
    c5buf.length = 11 := by decide

/-- Claim C6: the RLP primitives and ParseTransaction are claimed never to
read past the end of the buffer, a truncated long-form length prefix
yielding a Malformed error. Refuted by the code: on [0xB8] at the in-bounds
position 0, beInt indexes payload[1] (types.go:76) past the end, a runtime
panic rather than an error. -/
theorem c6_truncated_len_of_len_panics :
    rlpPrefix c6buf 0 = .panic ∧
    ParseTransaction ctx0 c6buf 0 = .panic ∧
    c6buf.length = 1 := by decide

/-- Claim C7 counterexample: the claim says every buffer containing an
over-long short-form prefix (long form encoding a payload length below 56)
fails with Malformed. On the code it does not: c7buf encodes the nonce 5 as
0xB8 0x01 0x05 (long form, length 1 < 56) and ParseTransaction accepts it,
decoding nonce = 5; the prefix routine itself accepts the item at
position 1 as (dataPos 3, dataLen 1). -/
theorem c7_overlong_prefix_accepted :
    rlpPrefix c7buf 1 = .ok (3, 1, false) ∧
    (ParseTransaction ctx0 c7buf 0).isOk = true ∧
    (slotOf (ParseTransaction ctx0 c7buf 0)).map (fun s => s.nonce) = some 5 := by decide

/-
  Lemmas about the primitives, used by the universal theorems below.
-/

theorem getByte_panic_of_oob (payload : List Nat) (i : Int)
    (h : (payload.length : Int) ≤ i) : getByte payload i = .panic := by
  unfold getByte
  exact dif_neg (by omega)

theorem getByte_ok_bounds (payload : List Nat) (i : Int) (b : Nat)
    (h : getByte payload i = .ok b) : 0 ≤ i ∧ i < (payload.length : Int) := by
  unfold getByte at h
  by_cases hc : 0 ≤ i ∧ i < (payload.length : Int)
  · exact hc
  · rw [dif_neg hc] at h
    exact PR.noConfusion h

theorem getByte_append (payload ext : List Nat) (i : Int) (b : Nat)
    (h : getByte payload i = .ok b) : getByte (payload ++ ext) i = .ok b := by
  have hb := getByte_ok_bounds payload i b h
  unfold getByte at h ⊢
  rw [dif_pos hb] at h
  have hb2 : 0 ≤ i ∧ i < ((payload ++ ext).length : Int) := by
    simp only [List.length_append]
    omega
  rw [dif_pos hb2, ← h]
  exact congrArg PR.ok (List.get_append i.toNat (by omega))

theorem sliceL_ok_bounds (payload : List Nat) (a b : Int) (l : List Nat)
    (h : sliceL payload a b = .ok l) : 0 ≤ a ∧ a ≤ b ∧ b ≤ (payload.length : Int) := by
  unfold sliceL at h
  by_cases hc : 0 ≤ a ∧ a ≤ b ∧ b ≤ (payload.length : Int)
  · exact hc
  · rw [if_neg hc] at h
    exact PR.noConfusion h

theorem sliceL_append (payload ext : List Nat) (a b : Int) (l : List Nat)
    (h : sliceL payload a b = .ok l) : sliceL (payload ++ ext) a b = .ok l := by
  have hb := sliceL_ok_bounds payload a b l h
  unfold sliceL at h ⊢
  rw [if_pos hb] at h
  have hb2 : 0 ≤ a ∧ a ≤ b ∧ b ≤ ((payload ++ ext).length : Int) := by
    simp only [List.length_append]
    omega
  rw [if_pos hb2, ← h]
  have hd : (payload ++ ext).drop a.toNat = payload.drop a.toNat ++ ext :=
    List.drop_append_of_le_length (by omega)
  rw [hd, List.take_append_of_le_length]
  simp only [List.length_drop]
  omega

theorem beInt_append (payload ext : List Nat) (pos length v : Int)
    (h : beInt payload pos length = .ok v) : beInt (payload ++ ext) pos length = .ok v := by
  unfold beInt at h ⊢
  by_cases hlen : 0 < length
  · rw [if_pos hlen] at h ⊢
    split at h
    · exact PR.noConfusion h
    · exact PR.noConfusion h
    · rename_i b heq
      simp only [getByte_append payload ext pos b heq]
      split at h
      · exact PR.noConfusion h
      · rename_i hb0
        rw [if_neg hb0]
        split at h
        · exact PR.noConfusion h
        · exact PR.noConfusion h
        · rename_i bs heqs
          simp only [sliceL_append payload ext pos (pos + length) bs heqs]
          exact h
  · rw [if_neg hlen] at h ⊢
    split at h
    · exact PR.noConfusion h
    · exact PR.noConfusion h
    · rename_i bs heqs
      simp only [sliceL_append payload ext pos (pos + length) bs heqs]
      exact h

theorem rlpPrefix_append (payload ext : List Nat) (pos : Int) (r : Int × Int × Bool)
    (h : rlpPrefix payload pos = .ok r) : rlpPrefix (payload ++ ext) pos = .ok r := by
  unfold rlpPrefix at h ⊢
  split at h
  · exact PR.noConfusion h
  · exact PR.noConfusion h
  · rename_i first heq
    simp only [getByte_append payload ext pos first heq]
    by_cases h1 : first < 128
    · rw [if_pos h1] at h ⊢; exact h
    · rw [if_neg h1] at h ⊢
      by_cases h2 : first < 184
      · rw [if_pos h2] at h ⊢; exact h
      · rw [if_neg h2] at h ⊢
        by_cases h3 : first < 192
        · rw [if_pos h3] at h ⊢
          split at h
          · exact PR.noConfusion h
          · exact PR.noConfusion h
          · rename_i dl heqb
            simp only [beInt_append payload ext (pos + 1) ((first : Int) - 183) dl heqb]
            exact h
        · rw [if_neg h3] at h ⊢
          by_cases h4 : first < 248
          · rw [if_pos h4] at h ⊢; exact h
          · rw [if_neg h4] at h ⊢
            split at h
            · exact PR.noConfusion h
            · exact PR.noConfusion h
            · rename_i dl heqb
              simp only [beInt_append payload ext (pos + 1) ((first : Int) - 247) dl heqb]
              exact h

/-- A nonce-field failure makes the scalars stage fail. -/
theorem scalars_err_of_nonce (payload : List Nat) (st : St)
    (hn : (parseUint64 payload st.p).isErr = true) :
    (scalarsStage payload st).isErr = true := by
  unfold scalarsStage
  cases hp : parseUint64 payload st.p with
  | ok x => rw [hp] at hn; exact absurd hn (by simp [PR.isErr])
  | err e => simp only [hp]; rfl
  | panic => rw [hp] at hn; exact absurd hn (by simp [PR.isErr])

theorem parse_err_of_scalars (ctx : Ctx) (payload : List Nat) (st1 : St)
    (ho : outerStage payload 0 ctx = .ok st1)
    (hch : chainIdStage payload st1 = .ok st1)
    (hsc : (scalarsStage payload st1).isErr = true) :
    (ParseTransaction ctx payload 0).isErr = true := by
  unfold ParseTransaction
  simp only [ho, hch]
  cases hs : scalarsStage payload st1 with
  | ok x => rw [hs] at hsc; exact absurd hsc (by simp [PR.isErr])
  | err e => simp only [hs]; rfl
  | panic => rw [hs] at hsc; exact absurd hsc (by simp [PR.isErr])

/-- Claim C7 (amended): a scalar with a leading zero byte at a position the
parser decodes as an integer fails with Malformed (first at the primitives
parseUint64 and parseUint256, then at ParseTransaction level for the nonce
0x81 0x00), and an item of the wrong kind fails with Malformed, in both
directions: a list where a string is required (the uint primitives, the
chainId, to and data stages, the storage-key loop) and a string where a
list is required (the access-list stage, the tuple loop). Two non-canonical
forms are NOT rejected: an over-long short-form prefix (see the
counterexample) and a leading-zero scalar in the typed chainId position,
which is skipped without being decoded - the last conjunct shows the
type-0x01 transaction c7zbuf with chainId 0x81 0x00 is accepted. -/
theorem c7_noncanonical_rejection :
    (∀ (payload : List Nat) (pos dp dl : Int),
      rlpPrefix payload pos = .ok (dp, dl, true) →
        (parseUint64 payload pos).isErr = true ∧ (parseUint256 payload pos).isErr = true) ∧
    (∀ (payload : List Nat) (pos dp dl : Int),
      rlpPrefix payload pos = .ok (dp, dl, false) → 0 < dl → getByte payload dp = .ok 0 →
        (parseUint64 payload pos).isErr = true ∧ (parseUint256 payload pos).isErr = true) ∧
    (∀ (payload : List Nat) (st : St) (dp dl : Int),
      (st.legacy = false → rlpPrefix payload st.p = .ok (dp, dl, true) →
        (chainIdStage payload st).isErr = true) ∧
      (rlpPrefix payload st.p = .ok (dp, dl, true) → (toStage payload st).isErr = true) ∧
      (rlpPrefix payload st.p = .ok (dp, dl, true) → (dataStage payload st).isErr = true) ∧
      (st.legacy = false → rlpPrefix payload st.p = .ok (dp, dl, false) →
        (alStage payload st).isErr = true)) ∧
    (∀ (payload : List Nat) (alEnd tuplePos dp dl : Int) (fuel aC sC : Nat),
      tuplePos < alEnd → rlpPrefix payload tuplePos = .ok (dp, dl, false) →
        (alTuples payload alEnd (fuel + 1) tuplePos aC sC).isErr = true) ∧
    (∀ (payload : List Nat) (storEnd skeyPos dp dl : Int) (fuel cnt : Nat),
      skeyPos < storEnd → rlpPrefix payload skeyPos = .ok (dp, dl, true) →
        (skeyLoop payload storEnd (fuel + 1) skeyPos cnt).isErr = true) ∧
    (∀ (ctx : Ctx) (payload : List Nat) (dp dl : Int),
      rlpPrefix payload 0 = .ok (dp, dl, true) → dp + dl = (payload.length : Int) →
      getByte payload dp = .ok 129 → getByte payload (dp + 1) = .ok 0 →
        (ParseTransaction ctx payload 0).isErr = true) ∧
    (ParseTransaction ctx0 c7zbuf 0).isOk = true := by
  refine ⟨?_, ?_, ?_, ?_, ?_, ?_, by decide⟩
  · intro payload pos dp dl hr
    constructor
    · unfold parseUint64
      simp only [hr]
      simp [PR.isErr]
    · unfold parseUint256
      simp only [hr]
      simp [PR.isErr]
  · intro payload pos dp dl hr hdl hz
    constructor
    · unfold parseUint64
      simp only [hr]
      by_cases hb : (payload.length : Int) ≤ dp + dl
      · rw [if_pos hb]; rfl
      · rw [if_neg hb]
        by_cases h8 : 8 < dl
        · rw [if_pos h8]; rfl
        · rw [if_neg h8, if_pos hdl]
          simp only [hz]
          rfl
    · unfold parseUint256
      simp only [hr]
      by_cases hb : (payload.length : Int) < dp + dl
      · rw [if_pos hb]; rfl
      · rw [if_neg hb]
        by_cases h32 : 32 < dl
        · rw [if_pos h32]; rfl
        · rw [if_neg h32, if_pos hdl]
          simp only [hz]
          rfl
  · intro payload st dp dl
    refine ⟨?_, ?_, ?_, ?_⟩
    · intro hleg hr
      unfold chainIdStage
      simp only [hleg, Bool.false_eq_true, if_false, hr]
      simp [PR.isErr]
    · intro hr
      unfold toStage
      simp only [hr]
      simp [PR.isErr]
    · intro hr
      unfold dataStage
      simp only [hr]
      simp [PR.isErr]
    · intro hleg hr
      unfold alStage
      simp only [hleg, Bool.false_eq_true, if_false, hr]
      simp [PR.isErr]
  · intro payload alEnd tuplePos dp dl fuel aC sC hlt hr
    simp only [alTuples]
    rw [if_pos hlt]
    simp only [hr]
    simp [PR.isErr]
  · intro payload storEnd skeyPos dp dl fuel cnt hlt hr
    simp only [skeyLoop]
    rw [if_pos hlt]
    simp only [hr]
    simp [PR.isErr]
  · intro ctx payload dp dl hr hend h81 h0
    have hb81 := getByte_ok_bounds payload dp 129 h81
    have hlen0 : ¬payload.length = 0 := by omega
    have ho : outerStage payload 0 ctx = .ok
        { p := dp, legacy := true, txType := LegacyTxType, sigHashPos := dp,
          nonce := 0, tip := 0, feeCap := 0, gas := 0, value := 0, creation := false,
          dataLen := 0, alAddrCount := 0, alStorCount := 0,
          k1 := [], k2 := ctx.k2 } := by
      unfold outerStage
      rw [if_neg hlen0]
      simp only [hr]
      rw [if_neg (by omega : ¬dp + dl ≠ (payload.length : Int))]
      rfl
    have hrp : rlpPrefix payload dp = .ok (dp + 1, 1, false) := by
      unfold rlpPrefix
      simp only [h81]
      norm_num
    have hnonce : (parseUint64 payload dp).isErr = true := by
      unfold parseUint64
      simp only [hrp]
      by_cases hb : (payload.length : Int) ≤ dp + 1 + 1
      · rw [if_pos hb]; rfl
      · rw [if_neg hb]
        rw [if_neg (by norm_num : ¬(8 : Int) < 1), if_pos (by norm_num : (0 : Int) < 1)]
        simp only [h0]
        rfl
    exact parse_err_of_scalars ctx payload _ ho rfl
      (scalars_err_of_nonce payload _ hnonce)

/-- Witness for c7_noncanonical_rejection: the list item 0xC1 0x05 at
position 0 of [0xC1, 0x05] makes parseUint64, the to stage and the
storage-key loop fail. -/
theorem c7_noncanonical_rejection_witness :
    (parseUint64 [0xc1, 0x05] 0).isErr = true ∧
    (toStage [0xc1, 0x05] stW).isErr = true ∧
    (skeyLoop [0xc1, 0x05] 2 1 0 0).isErr = true :=
  ⟨(c7_noncanonical_rejection.1 [0xc1, 0x05] 0 1 1 (by decide)).1,
   (c7_noncanonical_rejection.2.2.1 [0xc1, 0x05] stW 1 1).2.1 (by decide),
   c7_noncanonical_rejection.2.2.2.2.1 [0xc1, 0x05] 2 0 1 1 0 0 (by decide) (by decide)⟩

/-- Claim C8: appending any non-empty byte sequence to an accepted buffer
yields an input that ParseTransaction rejects: the outer prefix still
describes an item ending at the original length, so the single-top-level-
item check dataPos + dataLen == len(buf) (types.go:189) fails with an
error, whatever context is used. -/
theorem c8_trailing_bytes_rejected (ctxa ctxb : Ctx) (buf ext : List Nat)
    (hok : (ParseTransaction ctxa buf 0).isOk = true) (hext : ext ≠ []) :
    (ParseTransaction ctxb (buf ++ ext) 0).isErr = true := by
  cases ho : outerStage buf 0 ctxa with
  | panic =>
    unfold ParseTransaction at hok
    simp only [ho] at hok
    exact absurd hok (by simp [PR.isOk])
  | err e =>
    unfold ParseTransaction at hok
    simp only [ho] at hok
    exact absurd hok (by simp [PR.isOk])
  | ok st1 =>
    unfold outerStage at ho
    by_cases hlen : buf.length = 0
    · rw [if_pos hlen] at ho
      exact PR.noConfusion ho
    · rw [if_neg hlen] at ho
      cases hr : rlpPrefix buf 0 with
      | panic => rw [hr] at ho; exact PR.noConfusion ho
      | err e => simp only [hr] at ho; exact PR.noConfusion ho
      | ok trip =>
        obtain ⟨dp, dl, lg⟩ := trip
        simp only [hr] at ho
        by_cases hne : dp + dl ≠ (buf.length : Int)
        · rw [if_pos hne] at ho
          exact PR.noConfusion ho
        · push_neg at hne
          have hr2 := rlpPrefix_append buf ext 0 (dp, dl, lg) hr
          have hext1 : 0 < ext.length := List.length_pos.mpr hext
          have ho2 : outerStage (buf ++ ext) 0 ctxb =
              .err "transaction must be either 1 list or 1 string" := by
            unfold outerStage
            rw [if_neg (by simp only [List.length_append]; omega)]
            simp only [hr2]
            rw [if_pos (by simp only [List.length_append]; omega)]
          unfold ParseTransaction
          simp only [ho2]
          rfl

/-- Witness for c8_trailing_bytes_rejected: the valid legacy transaction
c8buf followed by a zero byte is rejected. -/
theorem c8_trailing_bytes_rejected_witness :
    (ParseTransaction ctx0 (c8buf ++ [0]) 0).isErr = true :=
  c8_trailing_bytes_rejected ctx0 ctx0 c8buf [0] (by decide) (by decide)

/-- Claim C9: the non-terminal string fields (chainId, to, data) and the
access-list header are rejected whenever the item ends exactly at the last
byte of the buffer: the bound checks at types.go:236, 276, 298 and 312 use
dataPos + dataLen ≥ len rather than >, so each of these stages fails even
though all the bytes of the field are present. -/
theorem c9_boundary_field_rejected (payload : List Nat) (st : St) (dp dl : Int)
    (hend : dp + dl = (payload.length : Int)) :
    (st.legacy = false → rlpPrefix payload st.p = .ok (dp, dl, false) →
      (chainIdStage payload st).isErr = true) ∧
    (rlpPrefix payload st.p = .ok (dp, dl, false) → (toStage payload st).isErr = true) ∧
    (rlpPrefix payload st.p = .ok (dp, dl, false) → (dataStage payload st).isErr = true) ∧
    (st.legacy = false → rlpPrefix payload st.p = .ok (dp, dl, true) →
      (alStage payload st).isErr = true) := by
  refine ⟨?_, ?_, ?_, ?_⟩
  · intro hleg hr
    unfold chainIdStage
    simp only [hleg, Bool.false_eq_true, if_false, hr]
    rw [if_pos (by omega : (payload.length : Int) ≤ dp + dl)]
    rfl
  · intro hr
    unfold toStage
    simp only [hr]
    rw [if_pos (by omega : (payload.length : Int) ≤ dp + dl)]
    rfl
  · intro hr
    unfold dataStage
    simp only [hr]
    rw [if_pos (by omega : (payload.length : Int) ≤ dp + dl)]
    rfl
  · intro hleg hr
    unfold alStage
    simp only [hleg, Bool.false_eq_true, if_false, hr]
    rw [if_pos (by omega : (payload.length : Int) ≤ dp + dl)]
    rfl

/-- Witness for c9_boundary_field_rejected: on the two-byte buffer
[0x81, 0x05] the string item at position 0 ends exactly at the end of the
buffer, and the chainId, to and data stages all reject it. -/
theorem c9_boundary_field_rejected_witness :
    (chainIdStage [0x81, 0x05] stW).isErr = true ∧
    (toStage [0x81, 0x05] stW).isErr = true ∧
    (dataStage [0x81, 0x05] stW).isErr = true :=
  ⟨(c9_boundary_field_rejected [0x81, 0x05] stW 1 1 (by decide)).1 (by decide) (by decide),
   (c9_boundary_field_rejected [0x81, 0x05] stW 1 1 (by decide)).2.1 (by decide),
   (c9_boundary_field_rejected [0x81, 0x05] stW 1 1 (by decide)).2.2.1 (by decide)⟩

/-- Claim C10: calling ParseTransaction on a non-empty payload with a start
position pos ≥ len(payload) panics with an index out of range instead of
returning an error: the empty check at types.go:176 only guards the empty
buffer, and the prefix routine immediately indexes payload[pos]
(types.go:88). -/
theorem c10_oob_start_pos_panics (ctx : Ctx) (payload : List Nat) (pos : Int)
    (hne : payload ≠ []) (hpos : (payload.length : Int) ≤ pos) :
    ParseTransaction ctx payload pos = .panic := by
  have hg : getByte payload pos = .panic := getByte_panic_of_oob payload pos hpos
  have hr : rlpPrefix payload pos = .panic := by
    unfold rlpPrefix
    simp only [hg]
  have hlen : ¬payload.length = 0 := by
    simpa [List.length_eq_zero] using hne
  have ho : outerStage payload pos ctx = .panic := by
    unfold outerStage
    rw [if_neg hlen]
    simp only [hr]
  unfold ParseTransaction
  simp only [ho]

/-- Witness for c10_oob_start_pos_panics: parsing the one-byte buffer [1]
from position 1 panics. -/
theorem c10_oob_start_pos_panics_witness :
    ParseTransaction ctx0 [1] 1 = .panic :=
  c10_oob_start_pos_panics ctx0 [1] 1 (by decide) (by decide)

end Txpool
